import Mathlib

/-!
Verification development for the `iot_house` repository.

The repository simulates a four-room IoT house: per-room synthetic sensor
readings (temperature, lights, power usage, water flow) are generated each
cycle and sent to an InfluxDB backend as line-protocol records.

This file gives a shallow embedding of the two simulator variants:

* `Simulador` — `src/simulador_casa.py` (console simulator, amplitude 2,
  room-independent discrete water-flow model, no configuration gate in
  `write_to_influx`);
* `Mapa` — `src/mapa_simulacion_casa.py` (2-D map GUI simulator, amplitude 4,
  per-room continuous water-flow model, configuration gate present).

`simulate_lights` and `simulate_power_usage` are textually identical in the
two source files and are embedded once, at top level.

Modelling conventions:

* Python's global `random` generator is embedded as an explicit stream
  `g : Nat → ℚ` of draws in `[0,1)` together with a position counter that each
  sampling primitive advances, mirroring the order in which the source
  consumes draws (including short-circuit evaluation of `and`).
* `random.choice(seq)` is embedded as indexing by `⌊u · len⌋` for one draw
  `u`, clamped into the sequence, so it always returns an element of `seq`,
  exactly as the Python primitive does.
* Floating-point values are idealised as exact rationals (reals where the
  source applies `math.sin`); `round(x, 1)` is embedded as exact
  round-half-to-even on tenths, Python's rounding rule.  No claim below
  depends on a tie or on binary-representation artefacts.
-/

/-- The four rooms of the house, the elements of the `ROOMS` list of the
sources. -/
inductive Room where
  | salon
  | dormitorio
  | cocina
  | bano
deriving DecidableEq, Repr

/-- The string identifier each room carries in the sources. -/
def Room.name : Room → String
  | .salon => "salon"
  | .dormitorio => "dormitorio"
  | .cocina => "cocina"
  | .bano => "bano"

/-- The list `ROOMS = ["salon", "dormitorio", "cocina", "bano"]`, the fixed iteration
order of a cycle. -/
def ROOMS : List Room := [.salon, .dormitorio, .cocina, .bano]

/-- A random stream is valid when every draw lies in `[0, 1)`, the range of
Python's `random.random()`. -/
def validRng (g : Nat → ℚ) : Prop := ∀ j, 0 ≤ g j ∧ g j < 1

/-- Embedding of `random.random()`: one draw, advancing the stream position. -/
def random_random (g : Nat → ℚ) (i : Nat) : ℚ × Nat := (g i, i + 1)

/-- Embedding of `random.uniform(a, b) = a + (b - a) * random.random()`. -/
def random_uniform (a b : ℚ) (g : Nat → ℚ) (i : Nat) : ℚ × Nat :=
  (a + (b - a) * g i, i + 1)

/-- Embedding of `random.choice(l)`: select an element of `l` by one uniform draw.  The
index is clamped into the list, so that (like the Python primitive) the result
is always an element of `l` when `l` is nonempty. -/
def random_choice (l : List ℚ) (g : Nat → ℚ) (i : Nat) : ℚ × Nat :=
  (l.getD (min (Int.toNat ⌊g i * l.length⌋) (l.length - 1)) 0, i + 1)

/-- Round to the nearest integer, ties to even: the rounding rule of Python's
built-in `round`. -/
def round_half_even {α : Type*} [LinearOrderedField α] [FloorRing α] (x : α) : ℤ :=
  if x - ⌊x⌋ < 1 / 2 then ⌊x⌋
  else if 1 / 2 < x - ⌊x⌋ then ⌊x⌋ + 1
  else if ⌊x⌋ % 2 = 0 then ⌊x⌋ else ⌊x⌋ + 1

theorem round_half_even_intCast {α : Type*} [LinearOrderedField α] [FloorRing α]
    (m : ℤ) : round_half_even (m : α) = m := by
  unfold round_half_even
  simp only [Int.floor_intCast, sub_self]
  norm_num

theorem le_round_half_even {α : Type*} [LinearOrderedField α] [FloorRing α]
    (m : ℤ) (x : α) (h : (m : α) ≤ x) : m ≤ round_half_even x := by
  have hfl : m ≤ ⌊x⌋ := Int.le_floor.mpr h
  unfold round_half_even
  split_ifs <;> omega

theorem round_half_even_le {α : Type*} [LinearOrderedField α] [FloorRing α]
    (m : ℤ) (x : α) (h : x ≤ (m : α)) : round_half_even x ≤ m := by
  have hfl : ⌊x⌋ ≤ m := by
    have h2 := Int.floor_mono h
    rwa [Int.floor_intCast] at h2
  have hfx : (⌊x⌋ : α) ≤ x := Int.floor_le x
  unfold round_half_even
  split_ifs with h1 h2 h3
  · omega
  all_goals {
    have hhalf : (⌊x⌋ : α) + 1 / 2 ≤ x := by linarith
    have hlt : (⌊x⌋ : α) < (m : α) := by linarith
    have : ⌊x⌋ < m := by exact_mod_cast hlt
    omega }

/-- Embedding of `round(x, 1)` on rationals: round `10 x` half-to-even, divide by ten. -/
def round1 (x : ℚ) : ℚ := (round_half_even (10 * x) : ℚ) / 10

/-- Embedding of `round(x, 1)` applied to a real, producing the (rational) one-decimal
value. -/
noncomputable def round1R (x : ℝ) : ℚ := (round_half_even (10 * x) : ℚ) / 10

theorem round1_intCast (n : ℤ) : round1 (n : ℚ) = n := by
  unfold round1
  have h : (10 : ℚ) * n = ((10 * n : ℤ) : ℚ) := by push_cast; ring
  rw [h, round_half_even_intCast]
  push_cast
  ring

theorem le_round1R (m : ℤ) (x : ℝ) (h : (m : ℝ) ≤ 10 * x) :
    (m : ℚ) / 10 ≤ round1R x := by
  have h1 : m ≤ round_half_even (10 * x) := le_round_half_even m (10 * x) h
  have h2 : (m : ℚ) ≤ (round_half_even (10 * x) : ℚ) := by exact_mod_cast h1
  unfold round1R
  linarith

theorem round1R_le (M : ℤ) (x : ℝ) (h : 10 * x ≤ (M : ℝ)) :
    round1R x ≤ (M : ℚ) / 10 := by
  have h1 : round_half_even (10 * x) ≤ M := round_half_even_le M (10 * x) h
  have h2 : (round_half_even (10 * x) : ℚ) ≤ (M : ℚ) := by exact_mod_cast h1
  unfold round1R
  linarith

theorem round1R_tenths (x : ℝ) : ∃ k : ℤ, round1R x = (k : ℚ) / 10 :=
  ⟨round_half_even (10 * x), rfl⟩

/-- Embedding of `simulate_lights` — textually identical in both source files.  The first
parameter (the room) is ignored by the source (`def simulate_lights(_, hour)`).
Returns 1 with probability depending on the hour bucket, else 0. -/
def simulate_lights (_room : Room) (hour : ℚ) (g : Nat → ℚ) (i : Nat) : Nat × Nat :=
  let prob_on : ℚ :=
    if 8 ≤ hour ∧ hour < 18 then 0.15
    else if 18 ≤ hour ∧ hour < 23 then 0.7
    else 0.3
  let u := random_random g i
  (if u.1 < prob_on then 1 else 0, u.2)

/-- The `base_power` dictionary of `simulate_power_usage` (both files). -/
def base_power : Room → ℚ
  | .salon => 60
  | .dormitorio => 20
  | .cocina => 80
  | .bano => 10

/-- Embedding of `simulate_power_usage` — textually identical in both source files:
`base_power[room] + (10 if lights_on else 0) + peak`, where the kitchen peaks
with probability 0.1 choosing from `[500, 800, 1200]` and the bathroom with
probability 0.05 choosing from `[600, 900]`.  Python's `and` short-circuits on
the room, so rooms other than the one tested draw nothing for that branch. -/
def simulate_power_usage (room : Room) (lights_on : Nat) (g : Nat → ℚ) (i : Nat) : ℚ × Nat :=
  let lights_power : ℚ := if lights_on ≠ 0 then 10 else 0
  let pk : ℚ × Nat :=
    if room = .cocina then
      let u := random_random g i
      if u.1 < 0.1 then random_choice [500, 800, 1200] g u.2 else (0, u.2)
    else if room = .bano then
      let u := random_random g i
      if u.1 < 0.05 then random_choice [600, 900] g u.2 else (0, u.2)
    else (0, i)
  (round1 (base_power room + lights_power + pk.1), pk.2)

namespace Simulador

/-- The per-room temperature offsets of `simulador_casa.simulate_temperature`. -/
def room_offset : Room → ℚ
  | .salon => -1.5
  | .dormitorio => 1.5
  | .cocina => 3.5
  | .bano => -4.5

/-- Embedding of `simulador_casa.simulate_temperature`: diurnal sine of amplitude 2 peaking
at 14:00, plus the room offset, plus `random.uniform(-0.5, 0.5)` noise,
rounded to one decimal. -/
noncomputable def simulate_temperature (room : Room) (hour : ℝ) (g : Nat → ℚ) (i : Nat) :
    ℚ × Nat :=
  let base_daily : ℝ := 20 + 2 * Real.sin (2 * Real.pi * (hour - 14) / 24)
  let u := random_uniform (-0.5) 0.5 g i
  (round1R (base_daily + (room_offset room : ℝ) + (u.1 : ℝ)), u.2)

/-- Embedding of `simulador_casa.simulate_water_flow`: ignores the room
(`def simulate_water_flow(_)`); with probability one half `random.choice` from
a fixed list of discrete flow values (which includes 0.0), otherwise 0.0. -/
def simulate_water_flow (_room : Room) (g : Nat → ℚ) (i : Nat) : ℚ × Nat :=
  let valores : List ℚ := [0.0, 1.5, 2.4, 3.7, 5.0, 7.3, 8.8, 10.1, 11.6]
  let u := random_random g i
  if u.1 < 0.5 then random_choice valores g u.2 else (0.0, u.2)

end Simulador

namespace Mapa

/-- The per-room temperature offsets of
`mapa_simulacion_casa.simulate_temperature`. -/
def room_offset : Room → ℚ
  | .salon => 1.0
  | .dormitorio => -0.5
  | .cocina => 1.5
  | .bano => 0.0

/-- Embedding of `mapa_simulacion_casa.simulate_temperature`: diurnal sine of amplitude 4
peaking at 14:00, plus the room offset, plus `random.uniform(-0.5, 0.5)`
noise, rounded to one decimal. -/
noncomputable def simulate_temperature (room : Room) (hour : ℝ) (g : Nat → ℚ) (i : Nat) :
    ℚ × Nat :=
  let base_daily : ℝ := 20 + 4 * Real.sin (2 * Real.pi * (hour - 14) / 24)
  let u := random_uniform (-0.5) 0.5 g i
  (round1R (base_daily + (room_offset room : ℝ) + (u.1 : ℝ)), u.2)

/-- Embedding of `mapa_simulacion_casa.simulate_water_flow`: the kitchen fires with
probability 0.1 drawing `round(uniform(2, 8), 1)`, the bathroom with
probability 0.15 drawing `round(uniform(3, 12), 1)`, any other room yields
0.0.  The two Python `if` conditions short-circuit on the room, so each call
draws at most one gate value and one uniform value. -/
def simulate_water_flow (room : Room) (g : Nat → ℚ) (i : Nat) : ℚ × Nat :=
  if room = .cocina then
    let u := random_random g i
    if u.1 < 0.1 then
      let v := random_uniform 2 8 g u.2
      (round1 v.1, v.2)
    else (0.0, u.2)
  else if room = .bano then
    let u := random_random g i
    if u.1 < 0.15 then
      let v := random_uniform 3 12 g u.2
      (round1 v.1, v.2)
    else (0.0, u.2)
  else (0.0, i)

end Mapa

/-- A concrete valid random stream: every draw is one half. -/
def gHalf : Nat → ℚ := fun _ => 1/2

theorem gHalf_valid : validRng gHalf :=
  fun _ => ⟨by norm_num [gHalf], by norm_num [gHalf]⟩

/-- C1 counterexample: `simulador_casa.simulate_water_flow` ignores the room
entirely — on the draw stream below it returns 8.8 L/min for the living room
(`salon`), so the claim that the living room and bedroom always read exactly
0.0 is false of this variant (which both cited sources were claimed to
satisfy). -/
theorem C1_water_flow_counterexample :
    (Simulador.simulate_water_flow .salon (fun j => if j = 0 then 0 else 7/10) 0).1 = 8.8
    ∧ (8.8 : ℚ) ≠ 0 := by
  constructor
  · norm_num [Simulador.simulate_water_flow, random_random, random_choice]
    rfl
  · norm_num

/-- C1 amended: the per-room water-flow property holds of the map variant
only.  `mapa_simulacion_casa.simulate_water_flow` returns exactly 0.0 for the
living room and the bedroom under every random draw; a non-zero flow arises
only for the kitchen or the bathroom, and then only when the room's gate
fired (probability 0.1 resp. 0.15), with the value the one-decimal rounding
of a uniform draw in [2, 8] (kitchen) resp. [3, 12] (bathroom).
(`simulador_casa.simulate_water_flow` instead ignores the room and draws from
a fixed discrete list with probability one half — see the counterexample.) -/
theorem C1_water_flow_mapa (g : Nat → ℚ) (i : Nat) (hg : validRng g) :
    (Mapa.simulate_water_flow .salon g i).1 = 0
    ∧ (Mapa.simulate_water_flow .dormitorio g i).1 = 0
    ∧ ((Mapa.simulate_water_flow .cocina g i).1 ≠ 0 →
        g i < 0.1 ∧ ∃ v : ℚ, 2 ≤ v ∧ v ≤ 8
          ∧ (Mapa.simulate_water_flow .cocina g i).1 = round1 v)
    ∧ ((Mapa.simulate_water_flow .bano g i).1 ≠ 0 →
        g i < 0.15 ∧ ∃ v : ℚ, 3 ≤ v ∧ v ≤ 12
          ∧ (Mapa.simulate_water_flow .bano g i).1 = round1 v) := by
  obtain ⟨hu0, hu1⟩ := hg (i + 1)
  have h00 : (0.0 : ℚ) = 0 := by norm_num
  refine ⟨by simp [Mapa.simulate_water_flow, h00], by simp [Mapa.simulate_water_flow, h00],
    ?_, ?_⟩
  · intro hne
    by_cases hf : g i < (0.1 : ℚ)
    · refine ⟨hf, 2 + (8 - 2) * g (i + 1), by linarith, by linarith, ?_⟩
      simp only [Mapa.simulate_water_flow, random_random, random_uniform, if_pos hf]
      simp
    · exact absurd
        (by simp only [Mapa.simulate_water_flow, random_random, if_neg hf]; simp [h00]) hne
  · intro hne
    by_cases hf : g i < (0.15 : ℚ)
    · refine ⟨hf, 3 + (12 - 3) * g (i + 1), by linarith, by linarith, ?_⟩
      simp only [Mapa.simulate_water_flow, random_random, random_uniform, if_pos hf]
      simp
    · exact absurd
        (by simp only [Mapa.simulate_water_flow, random_random, if_neg hf]; simp [h00]) hne

/-- If `b : ℝ` lies between two rational bounds whose ten-fold values are the
integers `m` and `M`, then the one-decimal rounding of `b` lies between the
same bounds. -/
theorem temp_round_bounds (b : ℝ) (lo hi : ℚ) (m M : ℤ)
    (hm : (m : ℚ) = 10 * lo) (hM : (M : ℚ) = 10 * hi)
    (hlo : ((lo : ℚ) : ℝ) ≤ b) (hhi : b ≤ ((hi : ℚ) : ℝ)) :
    lo ≤ round1R b ∧ round1R b ≤ hi := by
  constructor
  · have hc : ((m : ℚ) : ℝ) = 10 * ((lo : ℚ) : ℝ) := by exact_mod_cast hm
    push_cast at hc
    have h1 : (m : ℝ) ≤ 10 * b := by
      rw [hc]
      have : ((lo : ℚ) : ℝ) ≤ b := hlo
      linarith
    have h2 := le_round1R m b h1
    linarith [h2, hm]
  · have hc : ((M : ℚ) : ℝ) = 10 * ((hi : ℚ) : ℝ) := by exact_mod_cast hM
    push_cast at hc
    have h1 : 10 * b ≤ (M : ℝ) := by
      rw [hc]
      linarith
    have h2 := round1R_le M b h1
    linarith [h2, hM]

theorem C1_water_flow_witness :
    validRng gHalf
    ∧ ((Mapa.simulate_water_flow .salon gHalf 0).1 = 0
        ∧ (Mapa.simulate_water_flow .dormitorio gHalf 0).1 = 0
        ∧ ((Mapa.simulate_water_flow .cocina gHalf 0).1 ≠ 0 →
            gHalf 0 < 0.1 ∧ ∃ v : ℚ, 2 ≤ v ∧ v ≤ 8
              ∧ (Mapa.simulate_water_flow .cocina gHalf 0).1 = round1 v)
        ∧ ((Mapa.simulate_water_flow .bano gHalf 0).1 ≠ 0 →
            gHalf 0 < 0.15 ∧ ∃ v : ℚ, 3 ≤ v ∧ v ≤ 12
              ∧ (Mapa.simulate_water_flow .bano gHalf 0).1 = round1 v)) :=
  ⟨gHalf_valid, C1_water_flow_mapa gHalf 0 gHalf_valid⟩

/-- A scalar Python value as it appears in a field set.  Floats in this
program are always one-decimal values produced by `round(·, 1)`; `pyFloat`
carries the exact rational. -/
inductive PyVal where
  | pyStr (s : String)
  | pyInt (n : Int)
  | pyFloat (x : ℚ)
deriving DecidableEq, Repr

/-- Python `str()` of a one-decimal float (`21.3 ↦ "21.3"`, `80 ↦ "80.0"`,
`-1.3 ↦ "-1.3"`): sign, integer part, dot, tenths digit. -/
def renderFloat1 (x : ℚ) : String :=
  let t : ℤ := round_half_even (10 * x)
  (if t < 0 then "-" else "") ++ toString (t.natAbs / 10) ++ "." ++ toString (t.natAbs % 10)

/-- Python `str()` of a scalar, as interpolated by the f-strings of
`write_to_influx`. -/
def pyStrOf : PyVal → String
  | .pyStr s => s
  | .pyInt n => toString n
  | .pyFloat x => renderFloat1 x

/-- One element of the `field_parts` list of `write_to_influx`:
`f'{k}="{v}"'` when the value is a string, `f"{k}={v}"` otherwise. -/
def fieldItem (kv : String × PyVal) : String :=
  match kv.2 with
  | .pyStr s => kv.1 ++ "=\"" ++ s ++ "\""
  | v => kv.1 ++ "=" ++ pyStrOf v

/-- The line-protocol encoder embedded from `write_to_influx` (the
line-building part is textually identical in both source files): start from
the measurement name, `+=` one `,key=value` per tag in iteration order, a
single space, the comma-joined field items, and — only if a timestamp was
supplied — a space and the timestamp. -/
def influx_line (measurement : String) (tags : List (String × String))
    (fields : List (String × PyVal)) (timestamp : Option Int) : String :=
  let line := tags.foldl (fun acc kv => acc ++ ("," ++ kv.1 ++ "=" ++ kv.2)) measurement
  let line := line ++ " "
  let field_parts := fields.map fieldItem
  let line := line ++ String.intercalate "," field_parts
  match timestamp with
  | some ts => line ++ " " ++ toString ts
  | none => line

/-- Modelled from the spec: one field rendered per the rule of §4.3 step 4 —
string-typed values wrapped in double quotes, all other scalars emitted
unquoted in their natural textual form. -/
def specFieldItem (kv : String × PyVal) : String :=
  match kv.2 with
  | .pyStr s => kv.1 ++ "=\"" ++ s ++ "\""
  | .pyInt n => kv.1 ++ "=" ++ toString n
  | .pyFloat x => kv.1 ++ "=" ++ renderFloat1 x

/-- Modelled from the spec: the §4.3 encoding rule stated step by step — the
measurement name, then every tag as `,key=value` joined in order, a single
space, the comma-joined field items, then, only when a timestamp is supplied,
a space followed by the timestamp. -/
def specLine (measurement : String) (tags : List (String × String))
    (fields : List (String × PyVal)) (timestamp : Option Int) : String :=
  measurement
    ++ String.join (tags.map fun kv => "," ++ kv.1 ++ "=" ++ kv.2)
    ++ " "
    ++ String.intercalate "," (fields.map specFieldItem)
    ++ (match timestamp with
        | some ts => " " ++ toString ts
        | none => "")

theorem string_foldl_shift (l : List String) :
    ∀ s t : String, l.foldl (· ++ ·) (s ++ t) = s ++ l.foldl (· ++ ·) t := by
  induction l with
  | nil => intro s t; rfl
  | cons x xs ih =>
    intro s t
    simp only [List.foldl_cons]
    rw [String.append_assoc, ih]

theorem string_join_cons (a : String) (l : List String) :
    String.join (a :: l) = a ++ String.join l := by
  show (a :: l).foldl (· ++ ·) "" = a ++ l.foldl (· ++ ·) ""
  simp only [List.foldl_cons, String.empty_append]
  calc l.foldl (· ++ ·) a = l.foldl (· ++ ·) (a ++ "") := by rw [String.append_empty]
    _ = a ++ l.foldl (· ++ ·) "" := string_foldl_shift l a ""

theorem tags_foldl_eq_join (tags : List (String × String)) :
    ∀ m : String,
      tags.foldl (fun acc kv => acc ++ ("," ++ kv.1 ++ "=" ++ kv.2)) m
        = m ++ String.join (tags.map fun kv => "," ++ kv.1 ++ "=" ++ kv.2) := by
  induction tags with
  | nil => intro m; simp [String.join, String.append_empty]
  | cons kv rest ih =>
    intro m
    simp only [List.foldl_cons, List.map_cons, string_join_cons, ih]
    rw [String.append_assoc]

theorem fieldItem_eq_specFieldItem (kv : String × PyVal) :
    fieldItem kv = specFieldItem kv := by
  obtain ⟨k, v⟩ := kv
  cases v <;> rfl

/-- C3: the line-protocol encoder is bit-exact per the spec's rule —
measurement name, each tag appended as `,key=value` in tag-set iteration
order, a single space, the comma-joined `key=value` field items with string
values double-quoted and other scalars bare, then optionally a space and the
timestamp; in particular `temperature`/`{room: cocina}`/`{value: 21.3}` with
no timestamp encodes to `temperature,room=cocina value=21.3`, and
`{state: 1}` under `lights` encodes to `lights,room=cocina state=1`, while a
string-valued field is wrapped in double quotes. -/
theorem C3_line_protocol_encoder :
    (∀ (measurement : String) (tags : List (String × String))
        (fields : List (String × PyVal)) (timestamp : Option Int),
        influx_line measurement tags fields timestamp
          = specLine measurement tags fields timestamp)
    ∧ influx_line "temperature" [("room", "cocina")] [("value", PyVal.pyFloat 21.3)] none
        = "temperature,room=cocina value=21.3"
    ∧ influx_line "lights" [("room", "cocina")] [("state", PyVal.pyInt 1)] none
        = "lights,room=cocina state=1"
    ∧ influx_line "status" [("room", "cocina")] [("note", PyVal.pyStr "ok")] none
        = "status,room=cocina note=\"ok\"" := by
  have hfi : fieldItem = specFieldItem := funext fieldItem_eq_specFieldItem
  refine ⟨?_, ?_, ?_, ?_⟩
  · intro m tags fields ts
    unfold influx_line specLine
    rw [tags_foldl_eq_join, hfi]
    cases ts with
    | some t => simp [String.append_assoc]
    | none => simp [String.append_empty]
  · have h1 : (21.3 : ℚ) = 213 / 10 := by norm_num
    have hr : renderFloat1 (213 / 10) = "21.3" := by
      unfold renderFloat1
      have h2 : (10 : ℚ) * (213 / 10) = ((213 : ℤ) : ℚ) := by norm_num
      rw [h2, round_half_even_intCast]
      decide
    rw [h1]
    have hf : fieldItem ("value", PyVal.pyFloat (213 / 10))
        = "value=" ++ renderFloat1 (213 / 10) := rfl
    simp only [influx_line, List.map_cons, List.map_nil, hf, hr]
    decide
  · decide
  · decide

/-- The four backend configuration values (`INFLUX_URL`, `INFLUX_TOKEN`,
`INFLUX_ORG`, `INFLUX_BUCKET`), each possibly absent. -/
structure Config where
  url : Option String
  token : Option String
  org : Option String
  bucket : Option String
deriving DecidableEq, Repr

/-- Python truthiness test `not x` on an optional string: `None` and the
empty string are falsy. -/
def strFalsy : Option String → Bool
  | none => true
  | some s => s.isEmpty

/-- A Python exception: `requests` raises `RequestException` (or a subclass)
for every transport-level failure; `otherExc` stands for an exception of any
other class. -/
inductive PyExc where
  | requestException (msg : String)
  | otherExc (msg : String)
deriving DecidableEq, Repr

/-- The outcome of one attempted HTTP POST, supplied as an oracle: either a
response with a status code and body, or a transport-level failure
(connection refused, timeout, DNS failure, invalid URL, ...). -/
inductive Outcome where
  | response (status : Nat) (body : String)
  | transportError (msg : String)
deriving DecidableEq, Repr

/-- An outcome counting as a failed write: a transport error or a non-204
response. -/
def Outcome.isFailure : Outcome → Bool
  | .response status _ => status ≠ 204
  | .transportError _ => true

/-- Embedding of `requests.post`: returns the response, or raises `RequestException` on a
transport failure. -/
def requests_post (o : Outcome) : Except PyExc (Nat × String) :=
  match o with
  | .response status body => .ok (status, body)
  | .transportError msg => .error (.requestException msg)

/-- What one `write_to_influx` call did: the payload lines handed to
`requests.post` (empty when the configuration gate returned early) and the
diagnostic lines printed.  (The auth token, organisation and bucket travel in
the request headers and query parameters; no claim below depends on them.) -/
structure WriteResult where
  posts : List String
  logs : List String
deriving DecidableEq, Repr

/-- The non-204 diagnostic line of `write_to_influx`. -/
def errLog (status : Nat) (body : String) : String :=
  "Error enviando a InfluxDB: " ++ toString status ++ " " ++ body

/-- The caught-exception diagnostic line of `write_to_influx`. -/
def connLog (msg : String) : String :=
  "Error de conexion a InfluxDB: " ++ msg

/-- The encode-post-handle body shared verbatim by both `write_to_influx`
variants: build the line, `try` the POST, print a diagnostic on a non-204
status, catch and print a `RequestException`; an exception of any other
class would propagate to the caller. -/
def influx_send (measurement : String) (tags : List (String × String))
    (fields : List (String × PyVal)) (timestamp : Option Int) (o : Outcome) :
    Except PyExc WriteResult :=
  let line := influx_line measurement tags fields timestamp
  match requests_post o with
  | .ok sb => if sb.1 ≠ 204 then .ok ⟨[line], [errLog sb.1 sb.2]⟩ else .ok ⟨[line], []⟩
  | .error (.requestException msg) => .ok ⟨[line], [connLog msg]⟩
  | .error e => .error e

namespace Simulador

/-- Embedding of `simulador_casa.write_to_influx`.  This variant has NO configuration
gate: it always builds the line and calls `requests.post`, whatever the
configuration holds (an unset URL merely makes the POST itself fail, which
is then caught and logged like any transport error). -/
def write_to_influx (_cfg : Config) (measurement : String)
    (tags : List (String × String)) (fields : List (String × PyVal))
    (timestamp : Option Int) (o : Outcome) : Except PyExc WriteResult :=
  influx_send measurement tags fields timestamp o

end Simulador

namespace Mapa

/-- Embedding of `mapa_simulacion_casa.write_to_influx`: if any of the four configuration
values is falsy, return immediately (silent no-op); otherwise run the common
body. -/
def write_to_influx (cfg : Config) (measurement : String)
    (tags : List (String × String)) (fields : List (String × PyVal))
    (timestamp : Option Int) (o : Outcome) : Except PyExc WriteResult :=
  if strFalsy cfg.url || strFalsy cfg.token || strFalsy cfg.org || strFalsy cfg.bucket then
    .ok ⟨[], []⟩
  else influx_send measurement tags fields timestamp o

end Mapa

/-- The common body `influx_send` never raises: for every transport outcome it returns
normally, posting once and logging per the outcome. -/
theorem influx_send_ok (measurement : String) (tags : List (String × String))
    (fields : List (String × PyVal)) (timestamp : Option Int) (o : Outcome) :
    influx_send measurement tags fields timestamp o
      = .ok ⟨[influx_line measurement tags fields timestamp],
             match o with
             | .response status body => if status = 204 then [] else [errLog status body]
             | .transportError msg => [connLog msg]⟩ := by
  cases o with
  | response status body =>
    by_cases h : status = 204 <;> simp [influx_send, requests_post, h]
  | transportError msg => rfl

/-- C4: the Sink's write never raises to its caller — for every
configuration, input and transport outcome (any HTTP response, or any
transport-level exception) the call returns normally; a non-204 response is
logged with its status and body, a transport exception is caught and logged,
and in either case exactly one POST was attempted and nothing is retried or
propagated.  This holds for both source variants. -/
theorem C4_write_never_raises (cfg : Config) (measurement : String)
    (tags : List (String × String)) (fields : List (String × PyVal))
    (timestamp : Option Int) (status : Nat) (body msg : String) :
    Simulador.write_to_influx cfg measurement tags fields timestamp (.response status body)
      = .ok ⟨[influx_line measurement tags fields timestamp],
             if status = 204 then [] else [errLog status body]⟩
    ∧ Simulador.write_to_influx cfg measurement tags fields timestamp (.transportError msg)
      = .ok ⟨[influx_line measurement tags fields timestamp], [connLog msg]⟩
    ∧ Mapa.write_to_influx cfg measurement tags fields timestamp (.response status body)
      = .ok (if strFalsy cfg.url || strFalsy cfg.token || strFalsy cfg.org || strFalsy cfg.bucket
             then ⟨[], []⟩
             else ⟨[influx_line measurement tags fields timestamp],
                   if status = 204 then [] else [errLog status body]⟩)
    ∧ Mapa.write_to_influx cfg measurement tags fields timestamp (.transportError msg)
      = .ok (if strFalsy cfg.url || strFalsy cfg.token || strFalsy cfg.org || strFalsy cfg.bucket
             then ⟨[], []⟩
             else ⟨[influx_line measurement tags fields timestamp], [connLog msg]⟩) := by
  refine ⟨?_, ?_, ?_, ?_⟩
  · rw [Simulador.write_to_influx, influx_send_ok]
  · rw [Simulador.write_to_influx, influx_send_ok]
  · rw [Mapa.write_to_influx]
    by_cases h : (strFalsy cfg.url || strFalsy cfg.token || strFalsy cfg.org
        || strFalsy cfg.bucket) = true <;>
      simp only [h, if_pos, if_neg, Bool.not_eq_true, influx_send_ok, if_true, if_false]
  · rw [Mapa.write_to_influx]
    by_cases h : (strFalsy cfg.url || strFalsy cfg.token || strFalsy cfg.org
        || strFalsy cfg.bucket) = true <;>
      simp only [h, if_pos, if_neg, Bool.not_eq_true, influx_send_ok, if_true, if_false]

/-- C2 counterexample: with the URL configured but the auth token absent,
`simulador_casa.write_to_influx` still performs the POST and logs the
response — the claimed configuration-gated silent no-op does not hold for
this variant. -/
theorem C2_noop_gate_counterexample :
    Simulador.write_to_influx
      ⟨some "http://localhost:8086/api/v2/write", none, some "iot", some "house"⟩
      "temperature" [("room", "salon")] [("value", PyVal.pyInt 21)] none
      (.response 401 "unauthorized")
      = .ok ⟨["temperature,room=salon value=21"], [errLog 401 "unauthorized"]⟩ := by
  have hline : influx_line "temperature" [("room", "salon")] [("value", PyVal.pyInt 21)] none
      = "temperature,room=salon value=21" := by decide
  rw [Simulador.write_to_influx, influx_send_ok, hline]
  rfl

/-- C2 amended: the configuration no-op gate is present in the map/GUI
variant only.  In `mapa_simulacion_casa.write_to_influx`, if any of the four
configuration values is absent or empty, the call returns immediately for
every measurement, tags, fields, optional timestamp and transport outcome:
no POST is attempted and nothing is logged.  (`simulador_casa` has no such
gate — see the counterexample.) -/
theorem C2_noop_gate_mapa (cfg : Config) (measurement : String)
    (tags : List (String × String)) (fields : List (String × PyVal))
    (timestamp : Option Int) (o : Outcome)
    (h : (strFalsy cfg.url || strFalsy cfg.token || strFalsy cfg.org || strFalsy cfg.bucket)
          = true) :
    Mapa.write_to_influx cfg measurement tags fields timestamp o = .ok ⟨[], []⟩ := by
  rw [Mapa.write_to_influx, if_pos h]

theorem C2_noop_gate_mapa_witness :
    ((strFalsy (some "http://localhost:8086") || strFalsy (none : Option String)
        || strFalsy (some "iot") || strFalsy (some "house")) = true)
    ∧ Mapa.write_to_influx ⟨some "http://localhost:8086", none, some "iot", some "house"⟩
        "temperature" [("room", "salon")] [("value", PyVal.pyInt 21)] none
        (.transportError "connection refused")
        = .ok ⟨[], []⟩ :=
  ⟨by decide,
   C2_noop_gate_mapa _ "temperature" [("room", "salon")] [("value", PyVal.pyInt 21)] none
     (.transportError "connection refused") (by decide)⟩

/-- C5: for every room and every hour of day, the synthesized temperature
equals `round(20 + A*sin(2*pi*(h-14)/24) + offset(room) + noise, 1)` for a
noise value in `[-0.5, 0.5]`; it therefore lies within
`[baseline - A - 0.5, baseline + A + 0.5]` where `baseline = 20 + offset(room)`,
and it is rounded to exactly one decimal place.  This holds of both variants:
amplitude `A = 2` with the `simulador_casa` offsets, and amplitude `A = 4`
with the `mapa_simulacion_casa` offsets. -/
theorem C5_temperature_bounds (room : Room) (hour : ℝ) (g : Nat → ℚ) (i : Nat)
    (hg0 : 0 ≤ g i) (hg1 : g i < 1) (hh0 : 0 ≤ hour) (hh24 : hour < 24) :
    (∃ noise : ℚ, -(1/2 : ℚ) ≤ noise ∧ noise ≤ 1/2
      ∧ Simulador.simulate_temperature room hour g i
          = (round1R (20 + 2 * Real.sin (2 * Real.pi * (hour - 14) / 24)
              + (Simulador.room_offset room : ℝ) + (noise : ℝ)), i + 1)
      ∧ Mapa.simulate_temperature room hour g i
          = (round1R (20 + 4 * Real.sin (2 * Real.pi * (hour - 14) / 24)
              + (Mapa.room_offset room : ℝ) + (noise : ℝ)), i + 1))
    ∧ (20 + Simulador.room_offset room - 2 - 1/2
          ≤ (Simulador.simulate_temperature room hour g i).1
        ∧ (Simulador.simulate_temperature room hour g i).1
          ≤ 20 + Simulador.room_offset room + 2 + 1/2)
    ∧ (20 + Mapa.room_offset room - 4 - 1/2
          ≤ (Mapa.simulate_temperature room hour g i).1
        ∧ (Mapa.simulate_temperature room hour g i).1
          ≤ 20 + Mapa.room_offset room + 4 + 1/2)
    ∧ (∃ k : ℤ, (Simulador.simulate_temperature room hour g i).1 = (k : ℚ) / 10)
    ∧ (∃ k : ℤ, (Mapa.simulate_temperature room hour g i).1 = (k : ℚ) / 10) := by
  have hs1 := Real.neg_one_le_sin (2 * Real.pi * (hour - 14) / 24)
  have hs2 := Real.sin_le_one (2 * Real.pi * (hour - 14) / 24)
  have hgR0 : (0 : ℝ) ≤ ((g i : ℚ) : ℝ) := by exact_mod_cast hg0
  have hgR1 : ((g i : ℚ) : ℝ) ≤ 1 := by exact_mod_cast hg1.le
  refine ⟨⟨-0.5 + (0.5 - -0.5) * g i, by nlinarith [hg0, hg1], by nlinarith [hg0, hg1],
    rfl, rfl⟩, ?_, ?_, round1R_tenths _, round1R_tenths _⟩
  · cases room with
    | salon =>
      exact temp_round_bounds _ _ _ 160 210
        (by norm_num [Simulador.room_offset]) (by norm_num [Simulador.room_offset])
        (by push_cast [Simulador.room_offset, random_uniform]; linarith)
        (by push_cast [Simulador.room_offset, random_uniform]; linarith)
    | dormitorio =>
      exact temp_round_bounds _ _ _ 190 240
        (by norm_num [Simulador.room_offset]) (by norm_num [Simulador.room_offset])
        (by push_cast [Simulador.room_offset, random_uniform]; linarith)
        (by push_cast [Simulador.room_offset, random_uniform]; linarith)
    | cocina =>
      exact temp_round_bounds _ _ _ 210 260
        (by norm_num [Simulador.room_offset]) (by norm_num [Simulador.room_offset])
        (by push_cast [Simulador.room_offset, random_uniform]; linarith)
        (by push_cast [Simulador.room_offset, random_uniform]; linarith)
    | bano =>
      exact temp_round_bounds _ _ _ 130 180
        (by norm_num [Simulador.room_offset]) (by norm_num [Simulador.room_offset])
        (by push_cast [Simulador.room_offset, random_uniform]; linarith)
        (by push_cast [Simulador.room_offset, random_uniform]; linarith)
  · cases room with
    | salon =>
      exact temp_round_bounds _ _ _ 165 255
        (by norm_num [Mapa.room_offset]) (by norm_num [Mapa.room_offset])
        (by push_cast [Mapa.room_offset, random_uniform]; linarith)
        (by push_cast [Mapa.room_offset, random_uniform]; linarith)
    | dormitorio =>
      exact temp_round_bounds _ _ _ 150 240
        (by norm_num [Mapa.room_offset]) (by norm_num [Mapa.room_offset])
        (by push_cast [Mapa.room_offset, random_uniform]; linarith)
        (by push_cast [Mapa.room_offset, random_uniform]; linarith)
    | cocina =>
      exact temp_round_bounds _ _ _ 170 260
        (by norm_num [Mapa.room_offset]) (by norm_num [Mapa.room_offset])
        (by push_cast [Mapa.room_offset, random_uniform]; linarith)
        (by push_cast [Mapa.room_offset, random_uniform]; linarith)
    | bano =>
      exact temp_round_bounds _ _ _ 155 245
        (by norm_num [Mapa.room_offset]) (by norm_num [Mapa.room_offset])
        (by push_cast [Mapa.room_offset, random_uniform]; linarith)
        (by push_cast [Mapa.room_offset, random_uniform]; linarith)

theorem round1_eq_of_intCast (x : ℚ) (k : ℤ) (h : x = (k : ℚ)) : round1 x = x := by
  rw [h, round1_intCast]

/-- Lemma: `random.choice` always returns an element of a nonempty list. -/
theorem random_choice_mem (l : List ℚ) (h : l ≠ []) (g : Nat → ℚ) (i : Nat) :
    (random_choice l g i).1 ∈ l := by
  unfold random_choice
  have hlen : 0 < l.length := List.length_pos.mpr h
  have hidx : min (Int.toNat ⌊g i * l.length⌋) (l.length - 1) < l.length :=
    lt_of_le_of_lt (min_le_right _ _) (by omega)
  rw [List.getD_eq_getElem l 0 hidx]
  exact List.getElem_mem hidx

/-- The `10 if lights_on else 0` contribution is one of two integers. -/
theorem lights_power_int (lights_on : Nat) :
    ∃ kL : ℤ, (if lights_on ≠ 0 then (10 : ℚ) else 0) = (kL : ℚ)
      ∧ 0 ≤ (kL : ℚ) ∧ (kL : ℚ) ≤ 10 := by
  by_cases hl : lights_on ≠ 0
  · exact ⟨10, by rw [if_pos hl]; norm_num, by norm_num, by norm_num⟩
  · exact ⟨0, by rw [if_neg hl]; norm_num, by norm_num, by norm_num⟩

/-- C6: for every room and light state, the synthesized power usage is at
least `base_power[room]` (hence never negative); it exceeds
`base_power[room] + 10` only when a peak event fires; and when a peak fires
the added value comes only from the room's discrete peak set —
`[500, 800, 1200]` for the kitchen (probability 0.1), `[600, 900]` for the
bathroom (probability 0.05), and no peak at all for the other two rooms. -/
theorem C6_power_usage (room : Room) (lights_on : Nat) (g : Nat → ℚ) (i : Nat) :
    base_power room ≤ (simulate_power_usage room lights_on g i).1
    ∧ 0 ≤ (simulate_power_usage room lights_on g i).1
    ∧ ((simulate_power_usage room lights_on g i).1 > base_power room + 10 →
        (room = .cocina ∧ g i < 0.1) ∨ (room = .bano ∧ g i < 0.05))
    ∧ (room = .cocina → g i < 0.1 →
        ∃ p ∈ ([500, 800, 1200] : List ℚ),
          (simulate_power_usage room lights_on g i).1
            = base_power room + (if lights_on ≠ 0 then (10 : ℚ) else 0) + p)
    ∧ (room = .bano → g i < 0.05 →
        ∃ p ∈ ([600, 900] : List ℚ),
          (simulate_power_usage room lights_on g i).1
            = base_power room + (if lights_on ≠ 0 then (10 : ℚ) else 0) + p)
    ∧ ((room = .salon ∨ room = .dormitorio) →
        (simulate_power_usage room lights_on g i).1
          = base_power room + (if lights_on ≠ 0 then (10 : ℚ) else 0)) := by
  obtain ⟨kL, hkL, hkL0, hkL10⟩ := lights_power_int lights_on
  cases room with
  | salon =>
    have hval : (simulate_power_usage Room.salon lights_on g i).1
        = round1 (base_power Room.salon + (if lights_on ≠ 0 then (10 : ℚ) else 0) + 0) := rfl
    have hvfinal : (simulate_power_usage Room.salon lights_on g i).1
        = base_power Room.salon + (if lights_on ≠ 0 then (10 : ℚ) else 0) + 0 :=
      hval.trans (round1_eq_of_intCast _ (60 + kL)
        (by rw [hkL]; simp only [base_power]; push_cast; ring))
    refine ⟨?_, ?_, ?_, fun h => absurd h (by decide), fun h => absurd h (by decide),
      fun _ => by rw [hvfinal]; ring⟩
    · rw [hvfinal, hkL]; linarith
    · rw [hvfinal, hkL]; simp only [base_power]; linarith
    · intro habs
      rw [hvfinal, hkL] at habs
      exact absurd habs (by linarith)
  | dormitorio =>
    have hval : (simulate_power_usage Room.dormitorio lights_on g i).1
        = round1 (base_power Room.dormitorio + (if lights_on ≠ 0 then (10 : ℚ) else 0) + 0) :=
      rfl
    have hvfinal : (simulate_power_usage Room.dormitorio lights_on g i).1
        = base_power Room.dormitorio + (if lights_on ≠ 0 then (10 : ℚ) else 0) + 0 :=
      hval.trans (round1_eq_of_intCast _ (20 + kL)
        (by rw [hkL]; simp only [base_power]; push_cast; ring))
    refine ⟨?_, ?_, ?_, fun h => absurd h (by decide), fun h => absurd h (by decide),
      fun _ => by rw [hvfinal]; ring⟩
    · rw [hvfinal, hkL]; linarith
    · rw [hvfinal, hkL]; simp only [base_power]; linarith
    · intro habs
      rw [hvfinal, hkL] at habs
      exact absurd habs (by linarith)
  | cocina =>
    have h0 : (simulate_power_usage Room.cocina lights_on g i).1
        = round1 (base_power Room.cocina + (if lights_on ≠ 0 then (10 : ℚ) else 0)
            + (if g i < (0.1 : ℚ) then random_choice [500, 800, 1200] g (i + 1)
               else ((0 : ℚ), i + 1)).1) := rfl
    by_cases hf : g i < (0.1 : ℚ)
    · have hmem : (random_choice ([500, 800, 1200] : List ℚ) g (i + 1)).1
          ∈ ([500, 800, 1200] : List ℚ) := random_choice_mem _ (by simp) g (i + 1)
      have hmem2 := hmem
      simp only [List.mem_cons, List.not_mem_nil, or_false] at hmem2
      have hpk : ∃ kp : ℤ,
          (random_choice ([500, 800, 1200] : List ℚ) g (i + 1)).1 = (kp : ℚ)
          ∧ 500 ≤ (random_choice ([500, 800, 1200] : List ℚ) g (i + 1)).1 := by
        rcases hmem2 with h | h | h
        · exact ⟨500, by rw [h]; try norm_num, by rw [h]; try norm_num⟩
        · exact ⟨800, by rw [h]; try norm_num, by rw [h]; try norm_num⟩
        · exact ⟨1200, by rw [h]; try norm_num, by rw [h]; try norm_num⟩
      obtain ⟨kp, hkp, hp500⟩ := hpk
      have hval : (simulate_power_usage Room.cocina lights_on g i).1
          = round1 (base_power Room.cocina + (if lights_on ≠ 0 then (10 : ℚ) else 0)
              + (random_choice ([500, 800, 1200] : List ℚ) g (i + 1)).1) := by
        rw [h0, if_pos hf]
      have hvfinal : (simulate_power_usage Room.cocina lights_on g i).1
          = base_power Room.cocina + (if lights_on ≠ 0 then (10 : ℚ) else 0)
              + (random_choice ([500, 800, 1200] : List ℚ) g (i + 1)).1 :=
        hval.trans (round1_eq_of_intCast _ (80 + kL + kp)
          (by rw [hkL, hkp]; simp only [base_power]; push_cast; ring))
      refine ⟨?_, ?_, fun _ => Or.inl ⟨rfl, hf⟩,
        fun _ _ => ⟨_, hmem, hvfinal⟩,
        fun h => absurd h (by decide), fun h => absurd h (by decide)⟩
      · rw [hvfinal, hkL]; linarith
      · rw [hvfinal, hkL]; simp only [base_power]; linarith
    · have hval : (simulate_power_usage Room.cocina lights_on g i).1
          = round1 (base_power Room.cocina + (if lights_on ≠ 0 then (10 : ℚ) else 0)
              + (0 : ℚ)) := by
        rw [h0, if_neg hf]
      have hvfinal : (simulate_power_usage Room.cocina lights_on g i).1
          = base_power Room.cocina + (if lights_on ≠ 0 then (10 : ℚ) else 0) + 0 :=
        hval.trans (round1_eq_of_intCast _ (80 + kL)
          (by rw [hkL]; simp only [base_power]; push_cast; ring))
      refine ⟨?_, ?_, ?_, fun _ hff => absurd hff hf,
        fun h => absurd h (by decide), fun h => absurd h (by decide)⟩
      · rw [hvfinal, hkL]; linarith
      · rw [hvfinal, hkL]; simp only [base_power]; linarith
      · intro habs
        rw [hvfinal, hkL] at habs
        exact absurd habs (by linarith)
  | bano =>
    have h0 : (simulate_power_usage Room.bano lights_on g i).1
        = round1 (base_power Room.bano + (if lights_on ≠ 0 then (10 : ℚ) else 0)
            + (if g i < (0.05 : ℚ) then random_choice [600, 900] g (i + 1)
               else ((0 : ℚ), i + 1)).1) := rfl
    by_cases hf : g i < (0.05 : ℚ)
    · have hmem : (random_choice ([600, 900] : List ℚ) g (i + 1)).1
          ∈ ([600, 900] : List ℚ) := random_choice_mem _ (by simp) g (i + 1)
      have hmem2 := hmem
      simp only [List.mem_cons, List.not_mem_nil, or_false] at hmem2
      have hpk : ∃ kp : ℤ,
          (random_choice ([600, 900] : List ℚ) g (i + 1)).1 = (kp : ℚ)
          ∧ 600 ≤ (random_choice ([600, 900] : List ℚ) g (i + 1)).1 := by
        rcases hmem2 with h | h
        · exact ⟨600, by rw [h]; try norm_num, by rw [h]; try norm_num⟩
        · exact ⟨900, by rw [h]; try norm_num, by rw [h]; try norm_num⟩
      obtain ⟨kp, hkp, hp600⟩ := hpk
      have hval : (simulate_power_usage Room.bano lights_on g i).1
          = round1 (base_power Room.bano + (if lights_on ≠ 0 then (10 : ℚ) else 0)
              + (random_choice ([600, 900] : List ℚ) g (i + 1)).1) := by
        rw [h0, if_pos hf]
      have hvfinal : (simulate_power_usage Room.bano lights_on g i).1
          = base_power Room.bano + (if lights_on ≠ 0 then (10 : ℚ) else 0)
              + (random_choice ([600, 900] : List ℚ) g (i + 1)).1 :=
        hval.trans (round1_eq_of_intCast _ (10 + kL + kp)
          (by rw [hkL, hkp]; simp only [base_power]; push_cast; ring))
      refine ⟨?_, ?_, fun _ => Or.inr ⟨rfl, hf⟩,
        fun h => absurd h (by decide),
        fun _ _ => ⟨_, hmem, hvfinal⟩,
        fun h => absurd h (by decide)⟩
      · rw [hvfinal, hkL]; linarith
      · rw [hvfinal, hkL]; simp only [base_power]; linarith
    · have hval : (simulate_power_usage Room.bano lights_on g i).1
          = round1 (base_power Room.bano + (if lights_on ≠ 0 then (10 : ℚ) else 0)
              + (0 : ℚ)) := by
        rw [h0, if_neg hf]
      have hvfinal : (simulate_power_usage Room.bano lights_on g i).1
          = base_power Room.bano + (if lights_on ≠ 0 then (10 : ℚ) else 0) + 0 :=
        hval.trans (round1_eq_of_intCast _ (10 + kL)
          (by rw [hkL]; simp only [base_power]; push_cast; ring))
      refine ⟨?_, ?_, ?_, fun h => absurd h (by decide),
        fun _ hff => absurd hff hf, fun h => absurd h (by decide)⟩
      · rw [hvfinal, hkL]; linarith
      · rw [hvfinal, hkL]; simp only [base_power]; linarith
      · intro habs
        rw [hvfinal, hkL] at habs
        exact absurd habs (by linarith)

theorem C5_temperature_bounds_witness :
    (0 ≤ gHalf 0 ∧ gHalf 0 < 1 ∧ (0 : ℝ) ≤ 10 ∧ (10 : ℝ) < 24)
    ∧ (20 + Simulador.room_offset Room.cocina - 2 - 1/2
          ≤ (Simulador.simulate_temperature Room.cocina 10 gHalf 0).1
        ∧ (Simulador.simulate_temperature Room.cocina 10 gHalf 0).1
          ≤ 20 + Simulador.room_offset Room.cocina + 2 + 1/2) :=
  ⟨⟨by norm_num [gHalf], by norm_num [gHalf], by norm_num, by norm_num⟩,
   (C5_temperature_bounds Room.cocina 10 gHalf 0 (by norm_num [gHalf])
     (by norm_num [gHalf]) (by norm_num) (by norm_num)).2.1⟩

/-- A concrete valid random stream: every draw is zero. -/
def gZero : Nat → ℚ := fun _ => 0

theorem C6_power_usage_witness :
    gZero 0 < 0.1
    ∧ ∃ p ∈ ([500, 800, 1200] : List ℚ),
        (simulate_power_usage Room.cocina 1 gZero 0).1
          = base_power Room.cocina + (if (1 : Nat) ≠ 0 then (10 : ℚ) else 0) + p :=
  ⟨by norm_num [gZero],
   (C6_power_usage Room.cocina 1 gZero 0).2.2.2.1 rfl (by norm_num [gZero])⟩

/-- One synthesized reading: the dictionary appended per room by
`simulate_house_once` (the ISO timestamp string it also carries is
clock-presentation only and not modelled). -/
structure Reading where
  room : Room
  temperature : ℚ
  lights_on : Nat
  power_usage : ℚ
  water_flow : ℚ
deriving DecidableEq, Repr

/-- The loop body of `simulador_casa.simulate_house_once` over a room list,
threading the shared random stream through the four per-room channels. -/
noncomputable def Simulador.simulateRooms (g : Nat → ℚ) (hour : ℚ) :
    List Room → Nat → List Reading × Nat
  | [], i => ([], i)
  | room :: rest, i =>
    let t := Simulador.simulate_temperature room (hour : ℝ) g i
    let l := simulate_lights room hour g t.2
    let p := simulate_power_usage room l.1 g l.2
    let w := Simulador.simulate_water_flow room g p.2
    let tail := Simulador.simulateRooms g hour rest w.2
    (⟨room, t.1, l.1, p.1, w.1⟩ :: tail.1, tail.2)

/-- Embedding of `simulador_casa.simulate_house_once`: one reading per room of `ROOMS`, in
order. -/
noncomputable def Simulador.simulate_house_once (g : Nat → ℚ) (hour : ℚ) :
    List Reading × Nat :=
  Simulador.simulateRooms g hour ROOMS 0

/-- The loop body of `mapa_simulacion_casa.simulate_house_once` (same shape,
map-variant temperature and water-flow models). -/
noncomputable def Mapa.simulateRooms (g : Nat → ℚ) (hour : ℚ) :
    List Room → Nat → List Reading × Nat
  | [], i => ([], i)
  | room :: rest, i =>
    let t := Mapa.simulate_temperature room (hour : ℝ) g i
    let l := simulate_lights room hour g t.2
    let p := simulate_power_usage room l.1 g l.2
    let w := Mapa.simulate_water_flow room g p.2
    let tail := Mapa.simulateRooms g hour rest w.2
    (⟨room, t.1, l.1, p.1, w.1⟩ :: tail.1, tail.2)

/-- Embedding of `mapa_simulacion_casa.simulate_house_once`. -/
noncomputable def Mapa.simulate_house_once (g : Nat → ℚ) (hour : ℚ) :
    List Reading × Nat :=
  Mapa.simulateRooms g hour ROOMS 0

/-- One pending Sink invocation: the arguments the reporting loop passes to
`write_to_influx`. -/
structure SinkCall where
  measurement : String
  tags : List (String × String)
  fields : List (String × PyVal)
  timestamp : Option Int
deriving DecidableEq, Repr

/-- The four Sink calls the reporting loop issues for one reading —
`temperature`, `lights`, `power_usage`, `water_flow`, each tagged with the
reading's room; the timestamp argument is never passed (both in
`simulador_casa.main` and in `mapa_simulacion_casa.HouseGUI.update_simulation`). -/
def metricsOf (r : Reading) : List SinkCall :=
  [⟨"temperature", [("room", r.room.name)], [("value", PyVal.pyFloat r.temperature)], none⟩,
   ⟨"lights", [("room", r.room.name)], [("state", PyVal.pyInt (r.lights_on : Int))], none⟩,
   ⟨"power_usage", [("room", r.room.name)], [("value", PyVal.pyFloat r.power_usage)], none⟩,
   ⟨"water_flow", [("room", r.room.name)], [("value", PyVal.pyFloat r.water_flow)], none⟩]

/-- All sixteen Sink calls of one `simulador_casa.main` cycle, in issue
order. -/
noncomputable def Simulador.cycleSinkCalls (g : Nat → ℚ) (hour : ℚ) : List SinkCall :=
  (Simulador.simulate_house_once g hour).1.flatMap metricsOf

/-- All sixteen Sink calls of one `mapa_simulacion_casa` GUI update cycle, in
issue order. -/
noncomputable def Mapa.cycleSinkCalls (g : Nat → ℚ) (hour : ℚ) : List SinkCall :=
  (Mapa.simulate_house_once g hour).1.flatMap metricsOf

theorem Simulador.simulateRooms_rooms (g : Nat → ℚ) (hour : ℚ) (rooms : List Room) :
    ∀ i : Nat, ((Simulador.simulateRooms g hour rooms i).1.map fun r => r.room) = rooms := by
  induction rooms with
  | nil => intro i; rfl
  | cons room rest ih =>
    intro i
    simp only [Simulador.simulateRooms, List.map_cons, ih]

theorem flatMap_metrics_shape (rs : List Reading) :
    ((rs.flatMap metricsOf).map fun c => (c.measurement, c.tags))
      = rs.flatMap fun r =>
          [("temperature", [("room", r.room.name)]), ("lights", [("room", r.room.name)]),
           ("power_usage", [("room", r.room.name)]), ("water_flow", [("room", r.room.name)])] := by
  induction rs with
  | nil => rfl
  | cons r rest ih =>
    simp only [List.flatMap_cons, List.map_append, ih, metricsOf]
    rfl

theorem flatMap_metrics_timestamp (rs : List Reading) :
    ((rs.flatMap metricsOf).all fun c => c.timestamp == none) = true := by
  induction rs with
  | nil => rfl
  | cons r rest ih =>
    simp only [List.flatMap_cons, List.all_append, ih, metricsOf]
    rfl

/-- C7: for every random stream and clock value, one full reporting cycle of
`simulador_casa` produces exactly 4 readings — one per room, in the declared
order `salon, dormitorio, cocina, bano` — and issues exactly 16 Sink calls:
the four metrics `temperature, lights, power_usage, water_flow` for each of
the four rooms, each tagged with its room. -/
theorem C7_cycle_counts (g : Nat → ℚ) (hour : ℚ) :
    (Simulador.simulate_house_once g hour).1.length = 4
    ∧ ((Simulador.simulate_house_once g hour).1.map fun r => r.room) = ROOMS
    ∧ (Simulador.cycleSinkCalls g hour).length = 16
    ∧ ((Simulador.cycleSinkCalls g hour).map fun c => (c.measurement, c.tags))
      = [("temperature", [("room", "salon")]), ("lights", [("room", "salon")]),
         ("power_usage", [("room", "salon")]), ("water_flow", [("room", "salon")]),
         ("temperature", [("room", "dormitorio")]), ("lights", [("room", "dormitorio")]),
         ("power_usage", [("room", "dormitorio")]), ("water_flow", [("room", "dormitorio")]),
         ("temperature", [("room", "cocina")]), ("lights", [("room", "cocina")]),
         ("power_usage", [("room", "cocina")]), ("water_flow", [("room", "cocina")]),
         ("temperature", [("room", "bano")]), ("lights", [("room", "bano")]),
         ("power_usage", [("room", "bano")]), ("water_flow", [("room", "bano")])] := by
  have hrooms : ((Simulador.simulate_house_once g hour).1.map fun r => r.room) = ROOMS :=
    Simulador.simulateRooms_rooms g hour ROOMS 0
  have hshape : ((Simulador.cycleSinkCalls g hour).map fun c => (c.measurement, c.tags))
      = [("temperature", [("room", "salon")]), ("lights", [("room", "salon")]),
         ("power_usage", [("room", "salon")]), ("water_flow", [("room", "salon")]),
         ("temperature", [("room", "dormitorio")]), ("lights", [("room", "dormitorio")]),
         ("power_usage", [("room", "dormitorio")]), ("water_flow", [("room", "dormitorio")]),
         ("temperature", [("room", "cocina")]), ("lights", [("room", "cocina")]),
         ("power_usage", [("room", "cocina")]), ("water_flow", [("room", "cocina")]),
         ("temperature", [("room", "bano")]), ("lights", [("room", "bano")]),
         ("power_usage", [("room", "bano")]), ("water_flow", [("room", "bano")])] := by
    rw [Simulador.cycleSinkCalls, flatMap_metrics_shape]
    have hmapped : (Simulador.simulate_house_once g hour).1.flatMap
        (fun r => [("temperature", [("room", r.room.name)]),
           ("lights", [("room", r.room.name)]), ("power_usage", [("room", r.room.name)]),
           ("water_flow", [("room", r.room.name)])])
        = ((Simulador.simulate_house_once g hour).1.map fun r => r.room).flatMap
            (fun room => [("temperature", [("room", room.name)]),
               ("lights", [("room", room.name)]), ("power_usage", [("room", room.name)]),
               ("water_flow", [("room", room.name)])]) := by
      rw [List.flatMap_map]
    rw [hmapped, hrooms]
    rfl
  refine ⟨?_, hrooms, ?_, hshape⟩
  · have h := congrArg List.length hrooms
    rwa [List.length_map] at h
  · have h := congrArg List.length hshape
    rwa [List.length_map] at h

/-- C10 (implicit): the batch reporter never supplies the optional timestamp —
every one of the 16 Sink calls of a cycle (console variant and map/GUI
variant alike) carries no timestamp — and a line encoded without a timestamp
ends right after the field set: the trailing nanosecond-timestamp component
is appended exactly when a timestamp is supplied. -/
theorem C10_no_timestamp (g : Nat → ℚ) (hour : ℚ) (m : String)
    (tags : List (String × String)) (fields : List (String × PyVal)) (ts : Int) :
    ((Simulador.cycleSinkCalls g hour).all fun c => c.timestamp == none) = true
    ∧ ((Mapa.cycleSinkCalls g hour).all fun c => c.timestamp == none) = true
    ∧ influx_line m tags fields none
      = m ++ String.join (tags.map fun kv => "," ++ kv.1 ++ "=" ++ kv.2) ++ " "
          ++ String.intercalate "," (fields.map fieldItem)
    ∧ influx_line m tags fields (some ts)
      = influx_line m tags fields none ++ " " ++ toString ts := by
  refine ⟨flatMap_metrics_timestamp _, flatMap_metrics_timestamp _, ?_, rfl⟩
  unfold influx_line
  rw [tags_foldl_eq_join]

/-- C9: synthesis is deterministic given the random source and the clock —
with pointwise-equal random streams and the same room, hour-of-day, light
state and stream position, each of the four channel generators, and a whole
cycle, produce identical results; the generators consult nothing besides
their arguments. -/
theorem C9_determinism (room : Room) (hour : ℚ) (lights_on : Nat)
    (g₁ g₂ : Nat → ℚ) (i : Nat) (h : ∀ j, g₁ j = g₂ j) :
    Simulador.simulate_temperature room (hour : ℝ) g₁ i
      = Simulador.simulate_temperature room (hour : ℝ) g₂ i
    ∧ simulate_lights room hour g₁ i = simulate_lights room hour g₂ i
    ∧ simulate_power_usage room lights_on g₁ i = simulate_power_usage room lights_on g₂ i
    ∧ Simulador.simulate_water_flow room g₁ i = Simulador.simulate_water_flow room g₂ i
    ∧ Simulador.simulate_house_once g₁ hour = Simulador.simulate_house_once g₂ hour := by
  have hg : g₁ = g₂ := funext h
  subst hg
  exact ⟨rfl, rfl, rfl, rfl, rfl⟩

theorem C9_determinism_witness :
    (∀ j, gHalf j = gHalf j)
    ∧ Simulador.simulate_water_flow Room.salon gHalf 0
        = Simulador.simulate_water_flow Room.salon gHalf 0 :=
  ⟨fun _ => rfl, (C9_determinism Room.salon 12 1 gHalf gHalf 0 fun _ => rfl).2.2.2.1⟩

/-- The reporting loop of `simulador_casa.main` over a list of pending Sink
calls, numbering each call by its position in the cycle: an exception
escaping any `write_to_influx` call would abort the remaining iterations
(the `Except` bind). -/
def Simulador.runWrites (cfg : Config) (outcomes : Nat → Outcome) :
    List SinkCall → Nat → Except PyExc (List WriteResult)
  | [], _ => .ok []
  | c :: rest, n =>
    match Simulador.write_to_influx cfg c.measurement c.tags c.fields c.timestamp
        (outcomes n) with
    | .ok r =>
      match Simulador.runWrites cfg outcomes rest (n + 1) with
      | .ok rs => .ok (r :: rs)
      | .error e => .error e
    | .error e => .error e

theorem Simulador.write_ok (cfg : Config) (m : String) (tags : List (String × String))
    (fields : List (String × PyVal)) (ts : Option Int) (o : Outcome) :
    ∃ r : WriteResult, Simulador.write_to_influx cfg m tags fields ts o = .ok r
      ∧ r.posts = [influx_line m tags fields ts] :=
  ⟨_, by rw [Simulador.write_to_influx, influx_send_ok], rfl⟩

theorem Simulador.runWrites_ok (cfg : Config) (outcomes : Nat → Outcome)
    (calls : List SinkCall) :
    ∀ n : Nat,
      ∃ rs : List WriteResult,
        Simulador.runWrites cfg outcomes calls n = .ok rs
        ∧ rs.length = calls.length
        ∧ (rs.all fun r => r.posts.length == 1) = true := by
  induction calls with
  | nil => intro n; exact ⟨[], rfl, rfl, rfl⟩
  | cons c rest ih =>
    intro n
    obtain ⟨r, hr, hrposts⟩ :=
      Simulador.write_ok cfg c.measurement c.tags c.fields c.timestamp (outcomes n)
    obtain ⟨rs, hrs, hlen, hall⟩ := ih (n + 1)
    refine ⟨r :: rs, ?_, by simp [hlen], ?_⟩
    · simp only [Simulador.runWrites, hr, hrs]
    · simp only [List.all_cons, hall, Bool.and_true, hrposts]
      rfl

theorem Simulador.cycleSinkCalls_length (g : Nat → ℚ) (hour : ℚ) :
    (Simulador.cycleSinkCalls g hour).length = 16 := by
  have hshape := flatMap_metrics_shape (Simulador.simulate_house_once g hour).1
  have hrooms : ((Simulador.simulate_house_once g hour).1.map fun r => r.room) = ROOMS :=
    Simulador.simulateRooms_rooms g hour ROOMS 0
  have hmapped : (Simulador.simulate_house_once g hour).1.flatMap
      (fun r => [("temperature", [("room", r.room.name)]),
         ("lights", [("room", r.room.name)]), ("power_usage", [("room", r.room.name)]),
         ("water_flow", [("room", r.room.name)])])
      = ((Simulador.simulate_house_once g hour).1.map fun r => r.room).flatMap
          (fun room => [("temperature", [("room", room.name)]),
             ("lights", [("room", room.name)]), ("power_usage", [("room", room.name)]),
             ("water_flow", [("room", room.name)])]) := by
    rw [List.flatMap_map]
  have h := congrArg List.length (hshape.trans (hmapped.trans (by rw [hrooms])))
  rw [List.length_map] at h
  exact h.trans rfl

/-- C8: a transport failure on one metric write never prevents the remaining
metric writes of the same cycle: for every configuration, random stream,
clock value and outcome oracle, if the N-th of the cycle's 16 Sink calls
fails (N < 16), the sequential reporting loop still returns normally, having
attempted all 16 calls (exactly one POST each) in order. -/
theorem C8_failure_isolation (cfg : Config) (g : Nat → ℚ) (hour : ℚ)
    (outcomes : Nat → Outcome) (N : Nat) (hN : N < 16)
    (hfail : (outcomes N).isFailure = true) :
    ∃ rs : List WriteResult,
      Simulador.runWrites cfg outcomes (Simulador.cycleSinkCalls g hour) 0 = .ok rs
      ∧ rs.length = 16
      ∧ (rs.all fun r => r.posts.length == 1) = true := by
  obtain ⟨rs, hrs, hlen, hall⟩ :=
    Simulador.runWrites_ok cfg outcomes (Simulador.cycleSinkCalls g hour) 0
  exact ⟨rs, hrs, hlen.trans (Simulador.cycleSinkCalls_length g hour), hall⟩

theorem C8_failure_isolation_witness :
    0 < 16
    ∧ ((fun _ => Outcome.transportError "connection refused") 0).isFailure = true
    ∧ ∃ rs : List WriteResult,
        Simulador.runWrites ⟨some "u", some "t", some "o", some "b"⟩
          (fun _ => Outcome.transportError "connection refused")
          (Simulador.cycleSinkCalls gHalf 12) 0 = .ok rs
        ∧ rs.length = 16
        ∧ (rs.all fun r => r.posts.length == 1) = true :=
  ⟨by norm_num, rfl,
   C8_failure_isolation ⟨some "u", some "t", some "o", some "b"⟩ gHalf 12
     (fun _ => Outcome.transportError "connection refused") 0 (by norm_num) rfl⟩
